import Mathlib

/-!
Verification of the multi-tenant access-control core of the hustle-starter
repository, as a shallow embedding in Lean 4.

The embedding covers:
* the context resolver (`apps/server/src/lib/context.ts`, `createContext`);
* the tRPC guard chain (`lib/trpc.ts`: `protectedProcedure`, `orgProcedure`,
  `adminProcedure`, `ownerProcedure`);
* API-key generation and authentication
  (`lib/api-keys.ts` `generateApiKey`, `lib/api-key-auth.ts` `requireApiKey`);
* the fixed-window rate limiter configured in `requireApiKey`
  (the `hono-rate-limiter` library itself is an external dependency; its
  fixed-window counter is modelled from the spec, section 4.4);
* the Stripe webhook processor (`lib/webhook-handler.ts`,
  `handleStripeWebhook` — the variant that records webhook events — and the
  `/api/stripe/webhook` route in `index.ts`).

Databases are modelled as in-memory lists of records, requests are processed
sequentially, and timestamps are natural numbers (milliseconds).  External
collaborators (the cryptographic hash functions, the Stripe API, the
environment-dependent plan table) are parameters of the embedding.
-/

namespace HustleStarter

/-! ### Roles and memberships

From `db/schema/organization.ts`: `role` is one of
`owner | admin | member | viewer`.  The ordinal follows the role hierarchy
used in `db/seed.ts` (`hasOrganizationAccess`):
viewer 0, member 1, admin 2, owner 3. -/

inductive Role where
  | owner
  | admin
  | member
  | viewer
deriving DecidableEq, Repr

def roleOrdinal : Role → Nat
  | .viewer => 0
  | .member => 1
  | .admin => 2
  | .owner => 3

/-- A row of the `organization_user` table (the fields read by
`createContext`). -/
structure Membership where
  organizationId : String
  userId : String
  role : Role
deriving DecidableEq, Repr

/-! ### Context resolver (`lib/context.ts`) -/

/-- The tRPC context produced by `createContext`: resolved session (user id),
the raw `x-organization-id` header, and the membership row when one exists. -/
structure TrpcCtx where
  session : Option String
  organizationId : Option String
  organizationAccess : Option Membership
deriving DecidableEq, Repr

/-- The membership lookup performed by `createContext`: first row of
`organization_user` matching `(userId, organizationId)`. -/
def lookupMembership (ms : List Membership) (uid oid : String) : Option Membership :=
  (ms.filter (fun m => m.userId == uid && m.organizationId == oid)).head?

/-- `createContext`: resolve the session, read the `x-organization-id`
header, and, when both are present, look up the membership.  An invalid or
absent session yields an anonymous context (no error at this layer). -/
def createContext (ms : List Membership) (sessionUserId : Option String)
    (orgHeader : Option String) : TrpcCtx :=
  let organizationAccess :=
    match sessionUserId, orgHeader with
    | some uid, some oid => lookupMembership ms uid oid
    | _, _ => none
  { session := sessionUserId
    organizationId := orgHeader
    organizationAccess := organizationAccess }

/-! ### The guard chain (`lib/trpc.ts`) -/

/-- Outcome of running a procedure's guard chain: either the guard lets the
request through (`ok`) or it throws a `TRPCError` with the given code. -/
inductive TrpcOutcome where
  | ok
  | unauthorized
  | badRequest
  | forbidden
deriving DecidableEq, Repr

/-- `protectedProcedure`: throws UNAUTHORIZED when there is no session. -/
def protectedGuard (ctx : TrpcCtx) : TrpcOutcome :=
  match ctx.session with
  | none => .unauthorized
  | some _ => .ok

/-- `orgProcedure`: builds on `protectedProcedure`; throws BAD_REQUEST when
the `x-organization-id` header is absent, then FORBIDDEN when the caller has
no membership in that organization. -/
def orgGuard (ctx : TrpcCtx) : TrpcOutcome :=
  match protectedGuard ctx with
  | .ok =>
    match ctx.organizationId with
    | none => .badRequest
    | some _ =>
      match ctx.organizationAccess with
      | none => .forbidden
      | some _ => .ok
  | r => r

/-- `adminProcedure`: builds on `orgProcedure`; source check
`role !== "admin" && role !== "owner"` → FORBIDDEN.  (When `orgGuard`
passes, `organizationAccess` is necessarily `some`; the `none` branch is
unreachable.) -/
def adminGuard (ctx : TrpcCtx) : TrpcOutcome :=
  match orgGuard ctx with
  | .ok =>
    match ctx.organizationAccess with
    | some m => if m.role ≠ .admin ∧ m.role ≠ .owner then .forbidden else .ok
    | none => .forbidden
  | r => r

/-- `ownerProcedure`: builds on `orgProcedure`; source check
`role !== "owner"` → FORBIDDEN. -/
def ownerGuard (ctx : TrpcCtx) : TrpcOutcome :=
  match orgGuard ctx with
  | .ok =>
    match ctx.organizationAccess with
    | some m => if m.role ≠ .owner then .forbidden else .ok
    | none => .forbidden
  | r => r

/-- The five guard levels of the authorization chain. -/
inductive GuardLevel where
  | publicLevel
  | authenticated
  | tenantScoped
  | adminOrAbove
  | ownerOnly
deriving DecidableEq, Repr

/-- Dispatch a guard level to the corresponding procedure guard:
Public → `publicProcedure` (no guard), Authenticated → `protectedProcedure`,
TenantScoped → `orgProcedure`, AdminOrAbove → `adminProcedure`,
OwnerOnly → `ownerProcedure`. -/
def runGuard : GuardLevel → TrpcCtx → TrpcOutcome
  | .publicLevel, _ => .ok
  | .authenticated, ctx => protectedGuard ctx
  | .tenantScoped, ctx => orgGuard ctx
  | .adminOrAbove, ctx => adminGuard ctx
  | .ownerOnly, ctx => ownerGuard ctx

/-- The minimal role a guard level requires of a member (the spec's
`ordinal(L)` is `roleOrdinal` of this role). -/
def levelMinRole : GuardLevel → Role
  | .publicLevel => .viewer
  | .authenticated => .viewer
  | .tenantScoped => .viewer
  | .adminOrAbove => .admin
  | .ownerOnly => .owner

/-- Guard levels at or above TenantScoped (`orgProcedure`-or-higher). -/
def tenantScopedOrHigher : GuardLevel → Bool
  | .publicLevel => false
  | .authenticated => false
  | .tenantScoped => true
  | .adminOrAbove => true
  | .ownerOnly => true

/-! ### API keys

`db/schema/organization.ts` (`api_key` table), `lib/api-keys.ts`
(`generateApiKey`) and `lib/api-key-auth.ts` (`requireApiKey`).

The cryptographic primitives are external collaborators (`bcryptjs` and node
`crypto`).  They are parameters of the embedding, constrained only by their
documented output formats: a bcrypt hash is a modular-crypt-format string
beginning with the character `$`, and a sha256 hex digest consists solely of
lowercase hexadecimal digits. -/

/-- Lowercase hexadecimal digit (`0`–`9` or `a`–`f`). -/
def isHexDigitChar (c : Char) : Bool :=
  (48 ≤ c.toNat && c.toNat ≤ 57) || (97 ≤ c.toNat && c.toNat ≤ 102)

/-- The two hash primitives used by the repository:
`crypto.createHash("sha256").update(k).digest("hex")` and
`bcrypt.hashSync(k, cost)`, abstracted with their documented output
formats. -/
structure HashModel where
  sha256Hex : String → String
  bcryptHashSync : String → Nat → String
  sha256_hex_digits : ∀ s : String, ∀ c ∈ (sha256Hex s).data, isHexDigitChar c = true
  bcrypt_starts_dollar : ∀ s cost, (bcryptHashSync s cost).data.head? = some '$'

/-- A row of the `api_key` table (the fields read by `requireApiKey` plus
`lastUsedAt`).  `isActive` is a text column holding `"true"` / `"false"`. -/
structure ApiKeyRecord where
  id : String
  organizationId : String
  name : String
  keyHash : String
  expiresAt : Option Nat
  isActive : String
  revokedAt : Option Nat
  lastUsedAt : Option Nat
deriving DecidableEq, Repr

/-- `ApiKeyContext` from `api-key-auth.ts`: what a successful authentication
attaches to the request context. -/
structure ApiKeyContext where
  organizationId : String
  apiKeyId : String
  apiKeyLabel : String
deriving DecidableEq, Repr

/-- Result of the authentication phase of `requireApiKey`: either an HTTP
JSON error response `(status, error, message)` or success carrying the
attached context. -/
inductive AuthResult where
  | reject (status : Nat) (error : String) (message : String)
  | proceed (ctx : ApiKeyContext)
deriving DecidableEq, Repr

/-- JS `s.startsWith(p)` (code-unit semantics, embedded on the char list). -/
def strStartsWith (s p : String) : Bool :=
  s.data.take p.data.length == p.data

/-- JS `s.slice(n)` (code-unit semantics, embedded on the char list). -/
def strDrop (s : String) (n : Nat) : String :=
  String.mk (s.data.drop n)

/-- The value returned by `generateApiKey`. -/
structure GeneratedKey where
  key : String
  keyHash : String
  keyPfx : String
deriving DecidableEq, Repr

/-- `generateApiKey` from `lib/api-keys.ts`: the secret is
`<pfx>_<keyPart>` (`keyPart` models `nanoid(32)`), and the STORED hash is
`bcrypt.hashSync(fullKey, 10)`.  (The source calls the first argument
"prefix"; it is named `pfx` here.) -/
def generateApiKey (H : HashModel) (keyPart : String)
    (pfx : String := "sk_live") : GeneratedKey :=
  let fullKey := pfx ++ "_" ++ keyPart
  { key := fullKey
    keyHash := H.bcryptHashSync fullKey 10
    keyPfx := pfx }

/-- The authentication phase of the `requireApiKey` middleware
(`lib/api-key-auth.ts` lines 34–114): header extraction, sha256 LOOKUP hash,
database match on `(keyHash, isActive = "true", revokedAt IS NULL)`,
expiration check, then context attachment.  (The missing/malformed-header
message is reproduced without its inner quotes.) -/
def requireApiKeyAuth (H : HashModel) (dbKeys : List ApiKeyRecord) (now : Nat)
    (authHeader : Option String) : AuthResult :=
  match authHeader with
  | none =>
      .reject 401 "Unauthorized" "API key required. Use Authorization: Bearer <api_key> header."
  | some h =>
    if strStartsWith h "Bearer " = false then
      .reject 401 "Unauthorized" "API key required. Use Authorization: Bearer <api_key> header."
    else
      let providedKey := strDrop h 7
      if providedKey = "" then
        .reject 401 "Unauthorized" "API key cannot be empty."
      else
        let hashedKey := H.sha256Hex providedKey
        match dbKeys.find? (fun k =>
            k.keyHash == hashedKey && k.isActive == "true" && k.revokedAt.isNone) with
        | none => .reject 401 "Unauthorized" "Invalid API key."
        | some foundKey =>
          match foundKey.expiresAt with
          | some t =>
            if t < now then
              .reject 401 "Unauthorized" "API key has expired."
            else
              .proceed ⟨foundKey.organizationId, foundKey.id, foundKey.name⟩
          | none => .proceed ⟨foundKey.organizationId, foundKey.id, foundKey.name⟩

/-- A concrete instantiation of the hash collaborators used by witness
theorems: a stand-in sha256 producing 64 hex characters and a stand-in
bcrypt producing a `$2b$10$`-prefixed string.  Both satisfy the documented
output-format facts of the real primitives. -/
def toySha256Hex (_s : String) : String := String.mk (List.replicate 64 'a')

def toyBcryptHashSync (s : String) (_cost : Nat) : String := "$2b$10$" ++ s

def toyHashModel : HashModel where
  sha256Hex := toySha256Hex
  bcryptHashSync := toyBcryptHashSync
  sha256_hex_digits := by
    intro s c hc
    have hc' : c ∈ List.replicate 64 'a' := hc
    rw [List.eq_of_mem_replicate hc']
    decide
  bcrypt_starts_dollar := by
    intro s cost
    show (("$2b$10$" ++ s).data).head? = some '$'
    rw [String.data_append]
    rfl

/-- A key record as the creation route stores it: the bcrypt hash of the
freshly generated secret, active, unrevoked, unexpired. -/
def storedToyKey : ApiKeyRecord :=
  { id := "key1"
    organizationId := "org1"
    name := "demo"
    keyHash := (generateApiKey toyHashModel "K32" "sk_live").keyHash
    expiresAt := none
    isActive := "true"
    revokedAt := none
    lastUsedAt := none }

/-- A key is dead when it is inactive, revoked, or past expiration. -/
def keyDead (now : Nat) (k : ApiKeyRecord) : Prop :=
  k.isActive ≠ "true" ∨ k.revokedAt ≠ none ∨ ∃ t, k.expiresAt = some t ∧ t < now

/-! ### Rate limiting (`requireApiKey` with `rateLimit` options)

`parseWindow` is embedded from `api-key-auth.ts`.  The fixed-window counter
itself lives in the external `hono-rate-limiter` library; it is modelled
from the spec, section 4.4: one counter per (key id, wall-clock-aligned
window), atomic increment-and-read, post-increment count compared against
the limit, and rejected requests still counted. -/

def windowUnitMs (c : Char) : Option Nat :=
  if c = 's' then some 1000
  else if c = 'm' then some 60000
  else if c = 'h' then some 3600000
  else if c = 'd' then some 86400000
  else none

def digitsToNat (cs : List Char) : Nat :=
  cs.foldl (fun n c => n * 10 + (c.toNat - 48)) 0

/-- `parseWindow` from `api-key-auth.ts`: the window string must match
`^(\d+)([smhd])$`; the amount is multiplied by the unit in milliseconds.
`none` models the thrown `Invalid window format` error. -/
def parseWindow (w : String) : Option Nat :=
  match w.data.getLast? with
  | none => none
  | some u =>
    let ds := w.data.dropLast
    if ds ≠ [] ∧ ds.all (fun c => c.isDigit) then
      match windowUnitMs u with
      | some mult => some (digitsToNat ds * mult)
      | none => none
    else none

/-- Modelled from the spec (section 4.4): the rate-limit counter store,
keyed by (rate-limit key, window index). -/
structure RateLimitState where
  counters : String × Nat → Nat

def emptyRateLimit : RateLimitState := ⟨fun _ => 0⟩

/-- Atomic increment of one counter. -/
def rlIncr (st : RateLimitState) (k : String × Nat) : RateLimitState :=
  ⟨fun q => if q = k then st.counters q + 1 else st.counters q⟩

/-- Modelled from the spec (section 4.4): one fixed-window hit — increment
the counter for (key, current window) and allow the request iff the
post-increment count does not exceed the limit.  The increment stands even
when the request is rejected. -/
def rateLimitHit (limit windowMs : Nat) (keyId : String) (now : Nat)
    (st : RateLimitState) : Bool × RateLimitState :=
  let k := (keyId, now / windowMs)
  let st' := rlIncr st k
  (decide (st'.counters k ≤ limit), st')

/-- `RateLimitOptions` from `api-key-auth.ts`. -/
structure RateLimitOptions where
  requests : Nat
  window : String
deriving DecidableEq, Repr

/-- Result of the full `requireApiKey` middleware: either a JSON error
response, or the downstream handler runs with the attached context. -/
inductive MwResult where
  | response (status : Nat) (error : String) (message : String)
  | handlerRun (ctx : ApiKeyContext)
deriving DecidableEq, Repr

/-- The full `requireApiKey` middleware: authentication, then — only on
success — the configured rate limiter keyed by the found key's id
(`keyGenerator: () => foundKey.id`).  The middleware performs no database
write; it returns the key store unchanged.  An invalid window string
(`parseWindow` throw) is caught by the surrounding try/catch and answered
with 500 "Authentication failed.". -/
def requireApiKey (H : HashModel) (opts : Option RateLimitOptions)
    (dbKeys : List ApiKeyRecord) (st : RateLimitState) (now : Nat)
    (authHeader : Option String) :
    MwResult × List ApiKeyRecord × RateLimitState :=
  match requireApiKeyAuth H dbKeys now authHeader with
  | .reject s e m => (.response s e m, dbKeys, st)
  | .proceed ctx =>
    match opts with
    | none => (.handlerRun ctx, dbKeys, st)
    | some o =>
      match parseWindow o.window with
      | none => (.response 500 "Internal Server Error" "Authentication failed.", dbKeys, st)
      | some wms =>
        let hit := rateLimitHit o.requests wms ctx.apiKeyId now st
        if hit.1 then
          (.handlerRun ctx, dbKeys, hit.2)
        else
          (.response 429 "Too many requests"
              ("Rate limit exceeded. Maximum " ++ toString o.requests ++
                " requests per " ++ o.window ++ "."),
            dbKeys, hit.2)

/-- One request through the middleware, returning the outcome and the
updated rate-limit state. -/
def requestAt (H : HashModel) (opts : Option RateLimitOptions)
    (dbKeys : List ApiKeyRecord) (hdr : Option String) (now : Nat)
    (st : RateLimitState) : MwResult × RateLimitState :=
  let r := requireApiKey H opts dbKeys st now hdr
  (r.1, r.2.2)

/-- The rate-limit state after `j` sequential requests issued at time
`now`, starting from the empty store. -/
def stateAfter (H : HashModel) (opts : Option RateLimitOptions)
    (dbKeys : List ApiKeyRecord) (hdr : Option String) (now : Nat) :
    Nat → RateLimitState
  | 0 => emptyRateLimit
  | j + 1 => (requestAt H opts dbKeys hdr now
      (stateAfter H opts dbKeys hdr now j)).2

/-- A live stored key whose hash matches the (toy) lookup hash of the
secret `sk_live_K32` — the shape `requireApiKey` can authenticate. -/
def liveToyKey : ApiKeyRecord :=
  { storedToyKey with keyHash := toySha256Hex "sk_live_K32" }

/-! ### Webhook processor

Embedded from the event-recording variant of `handleStripeWebhook`
(`lib/webhook-handler.ts`) and the `/api/stripe/webhook` route in
`index.ts`.  The Stripe API (`StripeService.getSubscription`) and the
environment-dependent plan table (`getPlanByPriceId` over `PLANS`, whose
price ids come from environment variables) are external collaborators,
passed as parameters. -/

/-- Stripe subscription status values stored on the organization. -/
inductive SubStatus where
  | active
  | canceled
  | incomplete
  | incompleteExpired
  | pastDue
  | trialing
  | unpaid
deriving DecidableEq, Repr

/-- A row of the `organization` table (the fields touched by the webhook
handlers). -/
structure Org where
  id : String
  stripeCustomerId : Option String
  stripeSubscriptionId : Option String
  subscriptionStatus : Option SubStatus
  planTier : String
deriving DecidableEq, Repr

/-- A row of the `webhook_event` table (schema defaults: `error` null,
`retryCount` `"0"`). -/
structure WebhookEventRecord where
  id : String
  eventId : String
  eventType : String
  processedAt : Nat
  error : Option String
  retryCount : String
deriving DecidableEq, Repr

/-- A Stripe event, flattened to the payload fields the handlers read
(`event.data.object` cast per event type; absent fields are `none`). -/
structure SEvent where
  id : String
  type : String
  sessionMetadataOrgId : Option String
  sessionSubscription : Option String
  sessionCustomer : Option String
  subMetadataOrgId : Option String
  subId : String
  subStatus : SubStatus
  subPriceId : Option String
  invoiceId : String
deriving DecidableEq, Repr

/-- The fields of a subscription fetched via
`StripeService.getSubscription` that the checkout handler reads
(`subscription.id`, `.status`, `.items.data[0]?.price?.id`). -/
structure SubscriptionFetch where
  id : String
  status : SubStatus
  priceId : Option String
deriving DecidableEq, Repr

/-- External collaborators of the webhook processor: the Stripe
subscription lookup (an `error` models a thrown Stripe error) and
`getPlanByPriceId` (environment-dependent; `some planId` when a plan's
price id matches). -/
structure StripeEnv where
  getSubscription : String → Except String SubscriptionFetch
  planByPriceId : String → Option String

/-- `handleCheckoutCompleted`: requires `session.metadata.orgId` and
`session.subscription`; fetches the subscription; resolves the plan; sets
{customer ref, subscription ref, status, tier} on the organization; a
missing organization is a thrown error.  `Except.error` models `throw`. -/
def handleCheckoutCompleted (env : StripeEnv) (e : SEvent)
    (orgs : List Org) : Except String (List Org) :=
  match e.sessionMetadataOrgId with
  | none => .error "No orgId in checkout session metadata"
  | some orgId =>
    match e.sessionSubscription with
    | none => .error "No subscription in checkout session"
    | some subRef =>
      match env.getSubscription subRef with
      | .error msg => .error msg
      | .ok sub =>
        match sub.priceId with
        | none => .error "No price ID found in subscription"
        | some priceId =>
          match env.planByPriceId priceId with
          | none => .error ("Unknown price ID: " ++ priceId)
          | some planId =>
            if orgs.any (fun o => o.id == orgId) then
              .ok (orgs.map (fun o =>
                if o.id == orgId then
                  { o with
                      stripeCustomerId := e.sessionCustomer,
                      stripeSubscriptionId := some sub.id,
                      subscriptionStatus := some sub.status,
                      planTier := planId }
                else o))
            else
              .error ("Organization " ++ orgId ++ " not found")

/-- `handleSubscriptionUpdated`: with no `metadata.orgId`, locate the
organization by subscription ref (error if absent) and update the status;
with an orgId, update the status and — when the price maps to a plan — the
tier (no existence check in this branch, as in the source). -/
def handleSubscriptionUpdated (env : StripeEnv) (e : SEvent)
    (orgs : List Org) : Except String (List Org) :=
  match e.subMetadataOrgId with
  | none =>
    match orgs.find? (fun o => o.stripeSubscriptionId == some e.subId) with
    | none => .error ("Cannot find organization for subscription: " ++ e.subId)
    | some org =>
      .ok (orgs.map (fun o =>
        if o.id == org.id then { o with subscriptionStatus := some e.subStatus }
        else o))
  | some orgId =>
    let planInfo :=
      match e.subPriceId with
      | some p => env.planByPriceId p
      | none => none
    .ok (orgs.map (fun o =>
      if o.id == orgId then
        match planInfo with
        | some planId =>
          { o with subscriptionStatus := some e.subStatus, planTier := planId }
        | none => { o with subscriptionStatus := some e.subStatus }
      else o))

/-- `handleSubscriptionDeleted`: locate the organization by subscription
ref (error if absent); reset the tier to `"free"`, the status to
`canceled`, and clear the subscription ref. -/
def handleSubscriptionDeleted (e : SEvent) (orgs : List Org) :
    Except String (List Org) :=
  match orgs.find? (fun o => o.stripeSubscriptionId == some e.subId) with
  | none =>
    .error ("Cannot find organization for deleted subscription: " ++ e.subId)
  | some org =>
    .ok (orgs.map (fun o =>
      if o.id == org.id then
        { o with
            planTier := "free",
            subscriptionStatus := some SubStatus.canceled,
            stripeSubscriptionId := none }
      else o))

/-- The `switch (event.type)` body of `handleStripeWebhook`: the payment
events and unhandled types are logged and acknowledged without state
change. -/
def processEvent (env : StripeEnv) (e : SEvent) (orgs : List Org) :
    Except String (List Org) :=
  if e.type == "checkout.session.completed" then
    handleCheckoutCompleted env e orgs
  else if e.type == "customer.subscription.updated" then
    handleSubscriptionUpdated env e orgs
  else if e.type == "customer.subscription.deleted" then
    handleSubscriptionDeleted e orgs
  else if e.type == "invoice.payment_succeeded" then
    .ok orgs
  else if e.type == "invoice.payment_failed" then
    .ok orgs
  else
    .ok orgs

/-- The persistent state the webhook processor touches: the
`organization` and `webhook_event` tables. -/
structure DbState where
  orgs : List Org
  webhookEvents : List WebhookEventRecord
deriving DecidableEq, Repr

/-- Result of `handleStripeWebhook`: normal return or a re-thrown
processing error. -/
inductive WebhookResult where
  | success
  | failure (msg : String)
deriving DecidableEq, Repr

/-- The row inserted by `handleStripeWebhook` before processing
(`rid` models `crypto.randomUUID()`; `error`/`retryCount` take the schema
defaults `null`/`"0"`). -/
def newWebhookRecord (rid : String) (now : Nat) (e : SEvent) :
    WebhookEventRecord :=
  { id := rid
    eventId := e.id
    eventType := e.type
    processedAt := now
    error := none
    retryCount := "0" }

/-- `handleStripeWebhook` (event-recording variant): (1) skip and return
normally when a record for the event id already exists; (2) otherwise
insert the event record; (3) run the per-type handler; (4) on an exception,
write the error message and retry count `"1"` onto the event's record and
re-throw. -/
def handleStripeWebhook (env : StripeEnv) (rid : String) (now : Nat)
    (e : SEvent) (db : DbState) : WebhookResult × DbState :=
  if (db.webhookEvents.filter (fun r => r.eventId == e.id)).length > 0 then
    (.success, db)
  else
    let db1 : DbState := ⟨db.orgs, db.webhookEvents ++ [newWebhookRecord rid now e]⟩
    match processEvent env e db1.orgs with
    | .ok orgs2 => (.success, ⟨orgs2, db1.webhookEvents⟩)
    | .error msg =>
      (.failure msg,
       ⟨db1.orgs,
        db1.webhookEvents.map (fun r =>
          if r.eventId == e.id then
            { r with error := some msg, retryCount := "1" }
          else r)⟩)

/-- The `/api/stripe/webhook` route (`index.ts`): 400 when the
`stripe-signature` header is missing; `constructWebhookEvent` (signature
verification) yields the event or throws (modelled by `Option SEvent`),
a throw being caught and answered 400; a processing failure is also
answered 400; otherwise `{received: true}` with 200. -/
def stripeWebhookRoute (env : StripeEnv) (rid : String) (now : Nat)
    (signatureHeader : Option String) (eventOfBody : Option SEvent)
    (db : DbState) : Nat × DbState :=
  match signatureHeader with
  | none => (400, db)
  | some _ =>
    match eventOfBody with
    | none => (400, db)
    | some e =>
      match handleStripeWebhook env rid now e db with
      | (.success, db2) => (200, db2)
      | (.failure _, db2) => (400, db2)

/-! ### Concrete webhook instances for witnesses -/

def toyStripeEnv : StripeEnv :=
  { getSubscription := fun _ => .error "No such subscription"
    planByPriceId := fun p => if p == "price_basic" then some "basic" else none }

def toyOrg : Org :=
  { id := "org1"
    stripeCustomerId := some "cus_1"
    stripeSubscriptionId := some "sub_1"
    subscriptionStatus := some .active
    planTier := "pro" }

def toyOrgCanceled : Org :=
  { toyOrg with
      planTier := "free"
      subscriptionStatus := some .canceled
      stripeSubscriptionId := none }

def subDeletedEvent : SEvent :=
  { id := "evt_del"
    type := "customer.subscription.deleted"
    sessionMetadataOrgId := none
    sessionSubscription := none
    sessionCustomer := none
    subMetadataOrgId := none
    subId := "sub_1"
    subStatus := .canceled
    subPriceId := none
    invoiceId := "in_1" }

def badCheckoutEvent : SEvent :=
  { id := "evt_bad"
    type := "checkout.session.completed"
    sessionMetadataOrgId := none
    sessionSubscription := none
    sessionCustomer := none
    subMetadataOrgId := none
    subId := "sub_2"
    subStatus := .active
    subPriceId := none
    invoiceId := "in_2" }

/-! ### Theorems: guard chain (claims C3, C6, C7) -/

/-- **C3.** For every role R and guard level L, a request by a principal
holding role R in the selected tenant (session present, `x-organization-id`
present, membership resolved with role R) is granted by an L-gated operation
iff `ordinal(R) ≥ ordinal(L)` under the order owner > admin > member >
viewer.  In particular a viewer is rejected by `adminProcedure` and accepted
by `orgProcedure`. -/
theorem guard_grants_iff_role_ordinal (ms : List Membership) (uid oid : String)
    (m : Membership) (l : GuardLevel)
    (hm : lookupMembership ms uid oid = some m) :
    runGuard l (createContext ms (some uid) (some oid)) = .ok ↔
      roleOrdinal (levelMinRole l) ≤ roleOrdinal m.role := by
  cases l <;> cases hr : m.role <;>
    simp [runGuard, createContext, protectedGuard, orgGuard, adminGuard,
      ownerGuard, roleOrdinal, levelMinRole, hm, hr]

/-- Witness for C3: a viewer membership is rejected by the AdminOrAbove
guard and accepted by the TenantScoped guard. -/
theorem guard_grants_iff_role_ordinal_witness :
    (runGuard .adminOrAbove
        (createContext [⟨"org1", "u1", .viewer⟩] (some "u1") (some "org1")) = .ok ↔
      roleOrdinal (levelMinRole .adminOrAbove) ≤ roleOrdinal Role.viewer) ∧
    (runGuard .tenantScoped
        (createContext [⟨"org1", "u1", .viewer⟩] (some "u1") (some "org1")) = .ok ↔
      roleOrdinal (levelMinRole .tenantScoped) ≤ roleOrdinal Role.viewer) :=
  ⟨guard_grants_iff_role_ordinal [⟨"org1", "u1", .viewer⟩] "u1" "org1"
      ⟨"org1", "u1", .viewer⟩ .adminOrAbove (by decide),
   guard_grants_iff_role_ordinal [⟨"org1", "u1", .viewer⟩] "u1" "org1"
      ⟨"org1", "u1", .viewer⟩ .tenantScoped (by decide)⟩

/-- **C6.** Every tenant-scoped (orgProcedure-or-higher) request by an
authenticated principal without the `x-organization-id` header yields
BAD_REQUEST — never FORBIDDEN and never success. -/
theorem missing_org_header_bad_request (ms : List Membership) (uid : String)
    (l : GuardLevel) (hl : tenantScopedOrHigher l = true) :
    runGuard l (createContext ms (some uid) none) = .badRequest := by
  cases l <;> simp [tenantScopedOrHigher] at hl <;>
    simp [runGuard, createContext, protectedGuard, orgGuard, adminGuard,
      ownerGuard]

/-- Witness for C6: an owner of another organization who omits the header on
an OwnerOnly operation still gets BAD_REQUEST. -/
theorem missing_org_header_bad_request_witness :
    runGuard .ownerOnly
      (createContext [⟨"org1", "u1", .owner⟩] (some "u1") none) = .badRequest :=
  missing_org_header_bad_request [⟨"org1", "u1", .owner⟩] "u1" .ownerOnly (by decide)

/-- **C7.** An authenticated principal with no membership in the tenant
named by the `x-organization-id` header gets FORBIDDEN from every
TenantScoped-or-higher operation on that tenant — never NOT_FOUND and never
success — regardless of the roles they hold in other tenants. -/
theorem no_membership_forbidden (ms : List Membership) (uid oid : String)
    (l : GuardLevel) (hl : tenantScopedOrHigher l = true)
    (hno : ∀ m ∈ ms, ¬(m.userId = uid ∧ m.organizationId = oid)) :
    runGuard l (createContext ms (some uid) (some oid)) = .forbidden := by
  have hlook : lookupMembership ms uid oid = none := by
    unfold lookupMembership
    have hfil : ms.filter (fun m => m.userId == uid && m.organizationId == oid) = [] := by
      rw [List.filter_eq_nil_iff]
      intro m hmem
      have := hno m hmem
      simp only [Bool.and_eq_true, beq_iff_eq]
      tauto
    rw [hfil]
    rfl
  cases l <;> simp [tenantScopedOrHigher] at hl <;>
    simp [runGuard, createContext, protectedGuard, orgGuard, adminGuard,
      ownerGuard, hlook]

/-- Witness for C7: a principal who is owner of `org2` but has no membership
in `org1` gets FORBIDDEN from a TenantScoped operation on `org1`. -/
theorem no_membership_forbidden_witness :
    runGuard .tenantScoped
      (createContext [⟨"org2", "u1", .owner⟩] (some "u1") (some "org1")) = .forbidden :=
  no_membership_forbidden [⟨"org2", "u1", .owner⟩] "u1" "org1" .tenantScoped
    (by decide) (by decide)

/-- A bcrypt hash is never equal to a sha256 hex digest: the former starts
with `$`, which is not a hexadecimal digit. -/
theorem bcrypt_ne_sha256 (H : HashModel) (s t : String) (cost : Nat) :
    H.bcryptHashSync s cost ≠ H.sha256Hex t := by
  intro heq
  have hd := H.bcrypt_starts_dollar s cost
  rw [heq] at hd
  have hmem : '$' ∈ (H.sha256Hex t).data := by
    cases hdata : (H.sha256Hex t).data with
    | nil => rw [hdata] at hd; simp at hd
    | cons a l =>
      rw [hdata] at hd
      simp only [List.head?_cons, Option.some.injEq] at hd
      rw [hd]
      exact List.Mem.head _
  exact absurd (H.sha256_hex_digits t '$' hmem) (by decide)

theorem strStartsWith_bearer (s : String) :
    strStartsWith ("Bearer " ++ s) "Bearer " = true := by
  unfold strStartsWith
  rw [String.data_append]
  rw [show ("Bearer ".data) = ['B', 'e', 'a', 'r', 'e', 'r', ' '] from rfl]
  simp

theorem strDrop_bearer (s : String) : strDrop ("Bearer " ++ s) 7 = s := by
  unfold strDrop
  rw [String.data_append]
  rw [show ("Bearer ".data) = ['B', 'e', 'a', 'r', 'e', 'r', ' '] from rfl]
  cases s with
  | mk d => simp

theorem append_underscore_ne_empty (p k : String) : p ++ "_" ++ k ≠ "" := by
  intro h
  have hdata : (p ++ "_" ++ k).data = ("" : String).data := by rw [h]
  rw [String.data_append, String.data_append] at hdata
  rw [show ("_".data) = ['_'] from rfl, show (("" : String).data) = [] from rfl] at hdata
  simp at hdata

/-! ### Theorems: API keys (claims C1, C4) -/

/-- **C1 (code bug).** A key produced by `generateApiKey` and stored at
creation NEVER authenticates: creation stores `bcrypt.hashSync(key, 10)`
(`lib/api-keys.ts`), while `requireApiKey` looks the key up by its sha256
hex digest (`lib/api-key-auth.ts`), and a bcrypt hash never equals a sha256
digest.  Presenting the freshly created secret as `Authorization: Bearer
<secret>` against any database whose key hashes were produced by
`generateApiKey` is rejected with 401 "Invalid API key." — the stored hash
never matches the lookup hash, contradicting the spec's end-to-end
scenario. -/
theorem generated_key_never_authenticates (H : HashModel)
    (dbKeys : List ApiKeyRecord) (now : Nat) (keyPart pfx : String)
    (hstored : ∀ k ∈ dbKeys, ∃ s c, k.keyHash = H.bcryptHashSync s c) :
    requireApiKeyAuth H dbKeys now
        (some ("Bearer " ++ (generateApiKey H keyPart pfx).key)) =
      .reject 401 "Unauthorized" "Invalid API key." := by
  have hkey : (generateApiKey H keyPart pfx).key = pfx ++ "_" ++ keyPart := rfl
  rw [hkey]
  have hfind : dbKeys.find? (fun k =>
      k.keyHash == H.sha256Hex (pfx ++ "_" ++ keyPart) &&
      k.isActive == "true" && k.revokedAt.isNone) = none := by
    rw [List.find?_eq_none]
    intro k hk hcond
    simp only [Bool.and_eq_true, beq_iff_eq] at hcond
    obtain ⟨⟨h1, _⟩, _⟩ := hcond
    obtain ⟨s, c, hb⟩ := hstored k hk
    exact bcrypt_ne_sha256 H s (pfx ++ "_" ++ keyPart) c (hb ▸ h1)
  simp [requireApiKeyAuth, strStartsWith_bearer, strDrop_bearer,
    append_underscore_ne_empty pfx keyPart, hfind]

/-- Witness for C1: the concrete freshly created key is rejected with 401
"Invalid API key." when presented to the authenticator. -/
theorem generated_key_never_authenticates_witness :
    requireApiKeyAuth toyHashModel [storedToyKey] 0
        (some ("Bearer " ++ (generateApiKey toyHashModel "K32" "sk_live").key)) =
      .reject 401 "Unauthorized" "Invalid API key." :=
  generated_key_never_authenticates toyHashModel [storedToyKey] 0 "K32" "sk_live"
    (by
      intro k hk
      simp only [List.mem_singleton] at hk
      exact ⟨"sk_live_K32", 10, by rw [hk]; rfl⟩)

/-- **C4 (amended half).** When every stored key is revoked, expired, or
inactive, `requireApiKey` authenticates zero requests: every request is
answered with status 401 and error field "Unauthorized" (with some
message). -/
theorem dead_keys_always_unauthorized (H : HashModel)
    (dbKeys : List ApiKeyRecord) (now : Nat)
    (hdead : ∀ k ∈ dbKeys, keyDead now k) (hdr : Option String) :
    ∃ msg, requireApiKeyAuth H dbKeys now hdr =
      .reject 401 "Unauthorized" msg := by
  cases hdr with
  | none => exact ⟨_, rfl⟩
  | some h =>
    cases hsw : strStartsWith h "Bearer " with
    | false =>
      refine ⟨"API key required. Use Authorization: Bearer <api_key> header.", ?_⟩
      simp [requireApiKeyAuth, hsw]
    | true =>
      by_cases he : strDrop h 7 = ""
      · refine ⟨"API key cannot be empty.", ?_⟩
        simp [requireApiKeyAuth, hsw, he]
      · cases hfl : dbKeys.find? (fun k =>
            k.keyHash == H.sha256Hex (strDrop h 7) &&
            k.isActive == "true" && k.revokedAt.isNone) with
        | none =>
          refine ⟨"Invalid API key.", ?_⟩
          simp [requireApiKeyAuth, hsw, he, hfl]
        | some fk =>
          have hmem := List.mem_of_find?_eq_some hfl
          have hp := List.find?_some hfl
          simp only [Bool.and_eq_true, beq_iff_eq, Option.isNone_iff_eq_none] at hp
          obtain ⟨⟨_, hactive⟩, hrevoked⟩ := hp
          rcases hdead fk hmem with hia | hrv | ⟨t, hext, hlt⟩
          · exact absurd hactive hia
          · exact absurd hrevoked hrv
          · refine ⟨"API key has expired.", ?_⟩
            simp [requireApiKeyAuth, hsw, he, hfl, hext, hlt]

/-- Witness for C4's amended theorem: a database holding one revoked and one
expired key rejects a request with 401 Unauthorized. -/
theorem dead_keys_always_unauthorized_witness :
    ∃ msg, requireApiKeyAuth toyHashModel
        [{ storedToyKey with isActive := "false", revokedAt := some 5 },
         { storedToyKey with id := "key2", expiresAt := some 5 }] 10
        (some "Bearer sk_live_K32") = .reject 401 "Unauthorized" msg :=
  dead_keys_always_unauthorized toyHashModel
    [{ storedToyKey with isActive := "false", revokedAt := some 5 },
     { storedToyKey with id := "key2", expiresAt := some 5 }] 10
    (by
      intro k hk
      simp only [List.mem_cons, List.not_mem_nil, or_false] at hk
      rcases hk with hk | hk
      · subst hk
        exact Or.inl (by decide)
      · subst hk
        exact Or.inr (Or.inr ⟨5, rfl, by decide⟩))
    (some "Bearer sk_live_K32")

/-- **C4 (counterexample).** The three dead-key conditions do NOT all
produce an identical response body: a matching-but-expired key is answered
with message "API key has expired.", while a revoked key (filtered out of
the lookup) is answered with "Invalid API key.".  The bodies differ, so the
caller CAN distinguish an expired key from a revoked one. -/
theorem dead_key_bodies_differ :
    requireApiKeyAuth toyHashModel
        [{ storedToyKey with
            keyHash := toySha256Hex "sk_live_K32",
            expiresAt := some 5 }] 10 (some "Bearer sk_live_K32") =
      .reject 401 "Unauthorized" "API key has expired." ∧
    requireApiKeyAuth toyHashModel
        [{ storedToyKey with
            keyHash := toySha256Hex "sk_live_K32",
            revokedAt := some 5 }] 10 (some "Bearer sk_live_K32") =
      .reject 401 "Unauthorized" "Invalid API key." ∧
    ("API key has expired." : String) ≠ "Invalid API key." := by
  refine ⟨?_, ?_, by decide⟩ <;> decide

theorem rateLimitState_ext (a b : RateLimitState)
    (h : ∀ q, a.counters q = b.counters q) : a = b := by
  cases a with
  | mk f =>
    cases b with
    | mk g =>
      have : f = g := funext h
      rw [this]

/-- A successful authentication attaches the context of a stored key. -/
theorem auth_proceed_from_db (H : HashModel) (dbKeys : List ApiKeyRecord)
    (now : Nat) (hdr : Option String) (c : ApiKeyContext)
    (h : requireApiKeyAuth H dbKeys now hdr = .proceed c) :
    ∃ k ∈ dbKeys, c = ⟨k.organizationId, k.id, k.name⟩ := by
  cases hdr with
  | none => simp [requireApiKeyAuth] at h
  | some s =>
    cases hsw : strStartsWith s "Bearer " with
    | false => simp [requireApiKeyAuth, hsw] at h
    | true =>
      by_cases he : strDrop s 7 = ""
      · simp [requireApiKeyAuth, hsw, he] at h
      · cases hfl : dbKeys.find? (fun k =>
            k.keyHash == H.sha256Hex (strDrop s 7) &&
            k.isActive == "true" && k.revokedAt.isNone) with
        | none => simp [requireApiKeyAuth, hsw, he, hfl] at h
        | some fk =>
          have hmem := List.mem_of_find?_eq_some hfl
          refine ⟨fk, hmem, ?_⟩
          cases hex : fk.expiresAt with
          | none =>
            simp [requireApiKeyAuth, hsw, he, hfl, hex] at h
            rw [← h]
          | some t =>
            by_cases hlt : t < now
            · simp [requireApiKeyAuth, hsw, he, hfl, hex, hlt] at h
            · simp [requireApiKeyAuth, hsw, he, hfl, hex, hlt] at h
              rw [← h]

/-! ### Theorems: middleware success path and rate limiting (claims C9, C5) -/

/-- **C9 (amended).** A successfully authenticated API-key request attaches
{tenant id, key id, key name} of a stored key to the access context, and the
middleware performs NO database write: the key store is returned unchanged
(in particular no last-used timestamp is recorded; the repository updates
`lastUsedAt` only through the separate, explicitly invoked `updateUsage`
mutation). -/
theorem api_key_success_attaches_context_no_write (H : HashModel)
    (opts : Option RateLimitOptions) (dbKeys : List ApiKeyRecord)
    (st : RateLimitState) (now : Nat) (hdr : Option String)
    (ctx : ApiKeyContext) (db' : List ApiKeyRecord) (st' : RateLimitState)
    (h : requireApiKey H opts dbKeys st now hdr = (.handlerRun ctx, db', st')) :
    db' = dbKeys ∧ ∃ k ∈ dbKeys, ctx = ⟨k.organizationId, k.id, k.name⟩ := by
  cases hauth : requireApiKeyAuth H dbKeys now hdr with
  | reject s e m => simp [requireApiKey, hauth] at h
  | proceed c =>
    have hc : ∃ k ∈ dbKeys, c = ⟨k.organizationId, k.id, k.name⟩ :=
      auth_proceed_from_db H dbKeys now hdr c hauth
    cases opts with
    | none =>
      simp [requireApiKey, hauth] at h
      obtain ⟨hctx, hdb, _⟩ := h
      exact ⟨hdb.symm, hctx ▸ hc⟩
    | some o =>
      cases hpw : parseWindow o.window with
      | none => simp [requireApiKey, hauth, hpw] at h
      | some wms =>
        by_cases hhit : (rateLimitHit o.requests wms c.apiKeyId now st).1 = true
        · simp [requireApiKey, hauth, hpw, hhit] at h
          obtain ⟨hctx, hdb, _⟩ := h
          exact ⟨hdb.symm, hctx ▸ hc⟩
        · simp [requireApiKey, hauth, hpw, hhit] at h

/-- Witness for C9's amended theorem: a concrete successful request leaves
the key store untouched and attaches the stored key's identifiers. -/
theorem api_key_success_attaches_context_no_write_witness :
    [liveToyKey] = [liveToyKey] ∧
    ∃ k ∈ [liveToyKey],
      (⟨"org1", "key1", "demo"⟩ : ApiKeyContext) = ⟨k.organizationId, k.id, k.name⟩ :=
  api_key_success_attaches_context_no_write toyHashModel none [liveToyKey]
    emptyRateLimit 10 (some "Bearer sk_live_K32") ⟨"org1", "key1", "demo"⟩
    [liveToyKey] emptyRateLimit rfl

/-- **C9 (counterexample).** The authenticator does NOT record a last-used
timestamp: after a concrete successful request the stored key's
`lastUsedAt` is still `none` — the middleware returned the key store
unchanged, contradicting the claimed best-effort last-used update. -/
theorem api_key_auth_no_last_used_update :
    (requireApiKey toyHashModel none [liveToyKey] emptyRateLimit 10
        (some "Bearer sk_live_K32")).1 = .handlerRun ⟨"org1", "key1", "demo"⟩ ∧
    (requireApiKey toyHashModel none [liveToyKey] emptyRateLimit 10
        (some "Bearer sk_live_K32")).2.1 = [liveToyKey] ∧
    liveToyKey.lastUsedAt = none := by
  refine ⟨by decide, by decide, rfl⟩

theorem rlIncr_counters_self (st : RateLimitState) (k : String × Nat) :
    (rlIncr st k).counters k = st.counters k + 1 := by
  simp [rlIncr]

/-- With a valid key and a parseable window, one request through the
middleware always increments the counter for (key id, current window). -/
theorem requestAt_state (H : HashModel) (dbKeys : List ApiKeyRecord)
    (hdr : Option String) (ctx : ApiKeyContext) (N : Nat) (w : String)
    (W : Nat) (now : Nat) (st : RateLimitState)
    (hauth : requireApiKeyAuth H dbKeys now hdr = .proceed ctx)
    (hw : parseWindow w = some W) :
    (requestAt H (some ⟨N, w⟩) dbKeys hdr now st).2 =
      rlIncr st (ctx.apiKeyId, now / W) := by
  simp only [requestAt, requireApiKey, hauth, hw, rateLimitHit]
  split <;> rfl

/-- With a valid key and a parseable window, the outcome of one request is
decided by the post-increment counter against the limit. -/
theorem requestAt_outcome (H : HashModel) (dbKeys : List ApiKeyRecord)
    (hdr : Option String) (ctx : ApiKeyContext) (N : Nat) (w : String)
    (W : Nat) (now : Nat) (st : RateLimitState)
    (hauth : requireApiKeyAuth H dbKeys now hdr = .proceed ctx)
    (hw : parseWindow w = some W) :
    (requestAt H (some ⟨N, w⟩) dbKeys hdr now st).1 =
      if st.counters (ctx.apiKeyId, now / W) + 1 ≤ N then
        .handlerRun ctx
      else
        .response 429 "Too many requests"
          ("Rate limit exceeded. Maximum " ++ toString N ++
            " requests per " ++ w ++ ".") := by
  by_cases hle : st.counters (ctx.apiKeyId, now / W) + 1 ≤ N
  · simp [requestAt, requireApiKey, hauth, hw, rateLimitHit,
      rlIncr_counters_self, hle]
  · simp [requestAt, requireApiKey, hauth, hw, rateLimitHit,
      rlIncr_counters_self, hle]

/-- After `j` same-window requests from the empty store the only non-zero
counter is (key id, current window) and it equals `j`. -/
theorem stateAfter_counters (H : HashModel) (dbKeys : List ApiKeyRecord)
    (hdr : Option String) (ctx : ApiKeyContext) (N : Nat) (w : String)
    (W : Nat) (now : Nat)
    (hauth : requireApiKeyAuth H dbKeys now hdr = .proceed ctx)
    (hw : parseWindow w = some W) (j : Nat) :
    stateAfter H (some ⟨N, w⟩) dbKeys hdr now j =
      ⟨fun q => if q = (ctx.apiKeyId, now / W) then j else 0⟩ := by
  induction j with
  | zero =>
    apply rateLimitState_ext
    intro q
    simp [stateAfter, emptyRateLimit]
  | succ j ih =>
    show (requestAt H (some ⟨N, w⟩) dbKeys hdr now
        (stateAfter H (some ⟨N, w⟩) dbKeys hdr now j)).2 = _
    rw [requestAt_state H dbKeys hdr ctx N w W now _ hauth hw, ih]
    apply rateLimitState_ext
    intro q
    by_cases hq : q = (ctx.apiKeyId, now / W) <;> simp [rlIncr, hq]

/-- **C5.** Fixed-window rate limiting with limit N and window string `w`
(parsed to W milliseconds): issuing requests sequentially at time `now`
with a valid key, requests 1..N run the underlying handler, requests N+1
through 2N in the same window are all rejected with 429 and the configured
message without running the handler, and a request issued in the next
window (at `later`) runs the handler again.  The counter is keyed by the
key id and persists across the requests of a window. -/
theorem rate_limit_fixed_window (H : HashModel) (dbKeys : List ApiKeyRecord)
    (hdr : Option String) (ctx : ApiKeyContext) (N : Nat) (w : String)
    (W : Nat) (now later : Nat)
    (hauth : requireApiKeyAuth H dbKeys now hdr = .proceed ctx)
    (hauth2 : requireApiKeyAuth H dbKeys later hdr = .proceed ctx)
    (hw : parseWindow w = some W) (hN : 1 ≤ N)
    (hwin : later / W = now / W + 1) :
    (∀ i, 1 ≤ i → i ≤ N →
      (requestAt H (some ⟨N, w⟩) dbKeys hdr now
        (stateAfter H (some ⟨N, w⟩) dbKeys hdr now (i - 1))).1 =
        .handlerRun ctx) ∧
    (∀ i, N < i → i ≤ 2 * N →
      (requestAt H (some ⟨N, w⟩) dbKeys hdr now
        (stateAfter H (some ⟨N, w⟩) dbKeys hdr now (i - 1))).1 =
        .response 429 "Too many requests"
          ("Rate limit exceeded. Maximum " ++ toString N ++
            " requests per " ++ w ++ ".")) ∧
    (requestAt H (some ⟨N, w⟩) dbKeys hdr later
      (stateAfter H (some ⟨N, w⟩) dbKeys hdr now (2 * N))).1 =
      .handlerRun ctx := by
  refine ⟨?_, ?_, ?_⟩
  · intro i h1 h2
    rw [requestAt_outcome H dbKeys hdr ctx N w W now _ hauth hw,
      stateAfter_counters H dbKeys hdr ctx N w W now hauth hw]
    have hacc : i - 1 + 1 ≤ N := by omega
    simp [hacc]
  · intro i h1 h2
    rw [requestAt_outcome H dbKeys hdr ctx N w W now _ hauth hw,
      stateAfter_counters H dbKeys hdr ctx N w W now hauth hw]
    have hacc : ¬(i - 1 + 1 ≤ N) := by omega
    simp [hacc]
  · rw [requestAt_outcome H dbKeys hdr ctx N w W later _ hauth2 hw,
      stateAfter_counters H dbKeys hdr ctx N w W now hauth hw]
    have hne : ((ctx.apiKeyId, later / W) : String × Nat) ≠ (ctx.apiKeyId, now / W) := by
      intro hpair
      have := congrArg Prod.snd hpair
      simp at this
      omega
    simp [hne, hN]

/-- Witness for C5: with limit 2 over "5m", the 3rd same-window request is
rejected with 429 and a request in the next window runs the handler. -/
theorem rate_limit_fixed_window_witness :
    (requestAt toyHashModel (some ⟨2, "5m"⟩) [liveToyKey]
        (some "Bearer sk_live_K32") 0
        (stateAfter toyHashModel (some ⟨2, "5m"⟩) [liveToyKey]
          (some "Bearer sk_live_K32") 0 (3 - 1))).1 =
      .response 429 "Too many requests"
        ("Rate limit exceeded. Maximum " ++ toString 2 ++
          " requests per " ++ "5m" ++ ".") ∧
    (requestAt toyHashModel (some ⟨2, "5m"⟩) [liveToyKey]
        (some "Bearer sk_live_K32") 300000
        (stateAfter toyHashModel (some ⟨2, "5m"⟩) [liveToyKey]
          (some "Bearer sk_live_K32") 0 (2 * 2))).1 =
      .handlerRun ⟨"org1", "key1", "demo"⟩ :=
  ⟨(rate_limit_fixed_window toyHashModel [liveToyKey]
      (some "Bearer sk_live_K32") ⟨"org1", "key1", "demo"⟩ 2 "5m" 300000
      0 300000 (by decide) (by decide) (by decide) (by decide)
      (by decide)).2.1 3 (by decide) (by decide),
   (rate_limit_fixed_window toyHashModel [liveToyKey]
      (some "Bearer sk_live_K32") ⟨"org1", "key1", "demo"⟩ 2 "5m" 300000
      0 300000 (by decide) (by decide) (by decide) (by decide)
      (by decide)).2.2⟩

/-! ### Webhook helper lemmas -/

theorem map_guarded_update_id {α : Type} (l : List α) (p : α → Bool)
    (g : α → α) (h : ∀ a ∈ l, ¬p a = true) :
    l.map (fun a => if p a then g a else a) = l := by
  induction l with
  | nil => rfl
  | cons x xs ih =>
    simp only [List.map_cons]
    rw [if_neg (h x (List.Mem.head _)),
      ih (fun a ha => h a (List.Mem.tail _ ha))]

/-- A delivery whose event id already has a record is skipped and returns
normally with the database untouched. -/
theorem handleStripeWebhook_skip (env : StripeEnv) (rid : String) (now : Nat)
    (e : SEvent) (db : DbState)
    (hrec : (db.webhookEvents.filter (fun r => r.eventId == e.id)).length > 0) :
    handleStripeWebhook env rid now e db = (.success, db) := by
  simp [handleStripeWebhook, hrec]

/-- A fresh delivery whose processing succeeds inserts exactly the new
event record and applies the handler's organization update. -/
theorem handleStripeWebhook_fresh_ok (env : StripeEnv) (rid : String)
    (now : Nat) (e : SEvent) (db : DbState) (orgs2 : List Org)
    (hfresh : db.webhookEvents.filter (fun r => r.eventId == e.id) = [])
    (hpe : processEvent env e db.orgs = .ok orgs2) :
    handleStripeWebhook env rid now e db =
      (.success, ⟨orgs2, db.webhookEvents ++ [newWebhookRecord rid now e]⟩) := by
  simp only [handleStripeWebhook, hfresh]
  rw [hpe]
  simp

/-- A fresh delivery whose processing throws re-raises the error after
writing the message and retry count `"1"` onto the freshly inserted
record; the organizations are untouched. -/
theorem handleStripeWebhook_fresh_error (env : StripeEnv) (rid : String)
    (now : Nat) (e : SEvent) (db : DbState) (msg : String)
    (hfresh : db.webhookEvents.filter (fun r => r.eventId == e.id) = [])
    (herr : processEvent env e db.orgs = .error msg) :
    handleStripeWebhook env rid now e db =
      (.failure msg,
       ⟨db.orgs,
        db.webhookEvents ++
          [{ newWebhookRecord rid now e with
              error := some msg, retryCount := "1" }]⟩) := by
  have hnomatch : ∀ r ∈ db.webhookEvents, ¬((r.eventId == e.id) = true) :=
    List.filter_eq_nil_iff.mp hfresh
  simp only [handleStripeWebhook, hfresh]
  rw [herr]
  simp only [List.map_append, map_guarded_update_id _ _ _ hnomatch]
  simp [newWebhookRecord]

/-! ### Theorems: webhook processor (claims C2, C8, C10) -/

/-- **C2.** Sequential webhook idempotency: delivering the same event id
twice, where the first delivery is fresh and processes successfully,
applies the side effects exactly once — the second delivery is skipped
entirely (the database, organizations included, is returned unchanged),
exactly one event record exists for the id, and both HTTP responses are
200. -/
theorem webhook_idempotent_sequential (env : StripeEnv) (rid1 rid2 : String)
    (now1 now2 : Nat) (sig : String) (e : SEvent) (db db1 : DbState)
    (hfresh : db.webhookEvents.filter (fun r => r.eventId == e.id) = [])
    (hok : handleStripeWebhook env rid1 now1 e db = (.success, db1)) :
    handleStripeWebhook env rid2 now2 e db1 = (.success, db1) ∧
    (db1.webhookEvents.filter (fun r => r.eventId == e.id)).length = 1 ∧
    stripeWebhookRoute env rid1 now1 (some sig) (some e) db = (200, db1) ∧
    stripeWebhookRoute env rid2 now2 (some sig) (some e) db1 = (200, db1) := by
  cases hpe : processEvent env e db.orgs with
  | error msg =>
    rw [handleStripeWebhook_fresh_error env rid1 now1 e db msg hfresh hpe] at hok
    simp at hok
  | ok orgs2 =>
    rw [handleStripeWebhook_fresh_ok env rid1 now1 e db orgs2 hfresh hpe] at hok
    have hdb1 : db1 = ⟨orgs2, db.webhookEvents ++ [newWebhookRecord rid1 now1 e]⟩ := by
      have := congrArg Prod.snd hok
      simpa using this.symm
    subst hdb1
    have hfl1 : (db.webhookEvents ++ [newWebhookRecord rid1 now1 e]).filter
        (fun r => r.eventId == e.id) = [newWebhookRecord rid1 now1 e] := by
      rw [List.filter_append, hfresh]
      simp [newWebhookRecord]
    have hskip : handleStripeWebhook env rid2 now2 e
        ⟨orgs2, db.webhookEvents ++ [newWebhookRecord rid1 now1 e]⟩ =
        (.success, ⟨orgs2, db.webhookEvents ++ [newWebhookRecord rid1 now1 e]⟩) := by
      apply handleStripeWebhook_skip
      show ((db.webhookEvents ++ [newWebhookRecord rid1 now1 e]).filter
        (fun r => r.eventId == e.id)).length > 0
      rw [hfl1]
      simp
    have hfirst : handleStripeWebhook env rid1 now1 e db =
        (.success, ⟨orgs2, db.webhookEvents ++ [newWebhookRecord rid1 now1 e]⟩) :=
      handleStripeWebhook_fresh_ok env rid1 now1 e db orgs2 hfresh hpe
    refine ⟨hskip, ?_, ?_, ?_⟩
    · show ((db.webhookEvents ++ [newWebhookRecord rid1 now1 e]).filter
        (fun r => r.eventId == e.id)).length = 1
      rw [hfl1]
      rfl
    · simp [stripeWebhookRoute, hfirst]
    · simp [stripeWebhookRoute, hskip]

/-- **C8.** A fresh delivery whose per-type processing throws: the error
message is persisted onto the event's record, the record's retry count is
incremented (from the inserted default `"0"` to `"1"`), the exception is
re-raised, and the transport layer answers the provider with 400
(non-2xx). -/
theorem webhook_failure_records_error (env : StripeEnv) (rid : String)
    (now : Nat) (sig : String) (e : SEvent) (db : DbState) (msg : String)
    (hfresh : db.webhookEvents.filter (fun r => r.eventId == e.id) = [])
    (herr : processEvent env e db.orgs = .error msg) :
    handleStripeWebhook env rid now e db =
      (.failure msg,
       ⟨db.orgs,
        db.webhookEvents ++
          [{ newWebhookRecord rid now e with
              error := some msg, retryCount := "1" }]⟩) ∧
    (newWebhookRecord rid now e).retryCount = "0" ∧
    stripeWebhookRoute env rid now (some sig) (some e) db =
      (400,
       ⟨db.orgs,
        db.webhookEvents ++
          [{ newWebhookRecord rid now e with
              error := some msg, retryCount := "1" }]⟩) := by
  have hmain := handleStripeWebhook_fresh_error env rid now e db msg hfresh herr
  exact ⟨hmain, rfl, by simp [stripeWebhookRoute, hmain]⟩

/-- **C10 (implicit).** Because the event record is inserted before the
per-type handler runs, a fresh delivery that fails still leaves a durable
record for its event id: every subsequent redelivery of that id is detected
as already processed, skipped entirely (database unchanged), and
acknowledged with 200 — and the failed event's organization side effects
were never applied (the organizations after the failure equal those before
the first delivery). -/
theorem failed_event_not_reprocessed (env : StripeEnv) (rid rid2 : String)
    (now now2 : Nat) (sig : String) (e : SEvent) (db db2 : DbState)
    (msg : String)
    (hfresh : db.webhookEvents.filter (fun r => r.eventId == e.id) = [])
    (hfail : handleStripeWebhook env rid now e db = (.failure msg, db2)) :
    handleStripeWebhook env rid2 now2 e db2 = (.success, db2) ∧
    stripeWebhookRoute env rid2 now2 (some sig) (some e) db2 = (200, db2) ∧
    db2.orgs = db.orgs := by
  cases hpe : processEvent env e db.orgs with
  | ok orgs2 =>
    rw [handleStripeWebhook_fresh_ok env rid now e db orgs2 hfresh hpe] at hfail
    simp at hfail
  | error m =>
    rw [handleStripeWebhook_fresh_error env rid now e db m hfresh hpe] at hfail
    have hm : m = msg := by
      have := congrArg Prod.fst hfail
      simpa using this
    subst hm
    have hdb2 : db2 = ⟨db.orgs,
        db.webhookEvents ++
          [{ newWebhookRecord rid now e with
              error := some m, retryCount := "1" }]⟩ := by
      have := congrArg Prod.snd hfail
      simpa using this.symm
    subst hdb2
    have hnomatch : ∀ r ∈ db.webhookEvents, ¬((r.eventId == e.id) = true) :=
      List.filter_eq_nil_iff.mp hfresh
    have hskip : handleStripeWebhook env rid2 now2 e
        ⟨db.orgs,
         db.webhookEvents ++
           [{ newWebhookRecord rid now e with
               error := some m, retryCount := "1" }]⟩ =
        (.success,
         ⟨db.orgs,
          db.webhookEvents ++
            [{ newWebhookRecord rid now e with
                error := some m, retryCount := "1" }]⟩) := by
      apply handleStripeWebhook_skip
      show ((db.webhookEvents ++
        [{ newWebhookRecord rid now e with
            error := some m, retryCount := "1" }]).filter
        (fun (r : WebhookEventRecord) => r.eventId == e.id)).length > 0
      rw [List.filter_append, hfresh]
      simp [newWebhookRecord]
    exact ⟨hskip, by simp [stripeWebhookRoute, hskip], rfl⟩

/-- Witness for C2: a concrete `customer.subscription.deleted` event
delivered twice updates the organization once and returns 200 twice. -/
theorem webhook_idempotent_sequential_witness :
    handleStripeWebhook toyStripeEnv "rid2" 8 subDeletedEvent
        ⟨[toyOrgCanceled], [newWebhookRecord "rid1" 7 subDeletedEvent]⟩ =
      (.success, ⟨[toyOrgCanceled], [newWebhookRecord "rid1" 7 subDeletedEvent]⟩) ∧
    ((⟨[toyOrgCanceled], [newWebhookRecord "rid1" 7 subDeletedEvent]⟩ :
        DbState).webhookEvents.filter
      (fun r => r.eventId == subDeletedEvent.id)).length = 1 ∧
    stripeWebhookRoute toyStripeEnv "rid1" 7 (some "sig")
        (some subDeletedEvent) ⟨[toyOrg], []⟩ =
      (200, ⟨[toyOrgCanceled], [newWebhookRecord "rid1" 7 subDeletedEvent]⟩) ∧
    stripeWebhookRoute toyStripeEnv "rid2" 8 (some "sig")
        (some subDeletedEvent)
        ⟨[toyOrgCanceled], [newWebhookRecord "rid1" 7 subDeletedEvent]⟩ =
      (200, ⟨[toyOrgCanceled], [newWebhookRecord "rid1" 7 subDeletedEvent]⟩) :=
  webhook_idempotent_sequential toyStripeEnv "rid1" "rid2" 7 8 "sig"
    subDeletedEvent ⟨[toyOrg], []⟩
    ⟨[toyOrgCanceled], [newWebhookRecord "rid1" 7 subDeletedEvent]⟩
    (by decide) (by decide)

/-- Witness for C8: a `checkout.session.completed` event with no orgId
correlator fails, records the error with retry count 1, and is answered
400. -/
theorem webhook_failure_records_error_witness :
    handleStripeWebhook toyStripeEnv "rid1" 7 badCheckoutEvent ⟨[toyOrg], []⟩ =
      (.failure "No orgId in checkout session metadata",
       ⟨[toyOrg],
        [] ++
          [{ newWebhookRecord "rid1" 7 badCheckoutEvent with
              error := some "No orgId in checkout session metadata",
              retryCount := "1" }]⟩) ∧
    (newWebhookRecord "rid1" 7 badCheckoutEvent).retryCount = "0" ∧
    stripeWebhookRoute toyStripeEnv "rid1" 7 (some "sig")
        (some badCheckoutEvent) ⟨[toyOrg], []⟩ =
      (400,
       ⟨[toyOrg],
        [] ++
          [{ newWebhookRecord "rid1" 7 badCheckoutEvent with
              error := some "No orgId in checkout session metadata",
              retryCount := "1" }]⟩) :=
  webhook_failure_records_error toyStripeEnv "rid1" 7 "sig" badCheckoutEvent
    ⟨[toyOrg], []⟩ "No orgId in checkout session metadata" (by decide) rfl

/-- Witness for C10: after the failed checkout event, redelivery is skipped
with 200 and the organization list is unchanged. -/
theorem failed_event_not_reprocessed_witness :
    handleStripeWebhook toyStripeEnv "rid2" 8 badCheckoutEvent
        ⟨[toyOrg],
         [{ newWebhookRecord "rid1" 7 badCheckoutEvent with
             error := some "No orgId in checkout session metadata",
             retryCount := "1" }]⟩ =
      (.success,
       ⟨[toyOrg],
        [{ newWebhookRecord "rid1" 7 badCheckoutEvent with
            error := some "No orgId in checkout session metadata",
            retryCount := "1" }]⟩) ∧
    stripeWebhookRoute toyStripeEnv "rid2" 8 (some "sig")
        (some badCheckoutEvent)
        ⟨[toyOrg],
         [{ newWebhookRecord "rid1" 7 badCheckoutEvent with
             error := some "No orgId in checkout session metadata",
             retryCount := "1" }]⟩ =
      (200,
       ⟨[toyOrg],
        [{ newWebhookRecord "rid1" 7 badCheckoutEvent with
            error := some "No orgId in checkout session metadata",
            retryCount := "1" }]⟩) ∧
    (⟨[toyOrg],
      [{ newWebhookRecord "rid1" 7 badCheckoutEvent with
          error := some "No orgId in checkout session metadata",
          retryCount := "1" }]⟩ : DbState).orgs =
      (⟨[toyOrg], []⟩ : DbState).orgs :=
  failed_event_not_reprocessed toyStripeEnv "rid1" "rid2" 7 8 "sig"
    badCheckoutEvent ⟨[toyOrg], []⟩
    ⟨[toyOrg],
     [{ newWebhookRecord "rid1" 7 badCheckoutEvent with
         error := some "No orgId in checkout session metadata",
         retryCount := "1" }]⟩
    "No orgId in checkout session metadata" (by decide) (by decide)

end HustleStarter
